import Mathlib

/-!
Shallow embedding of the turn-based combat resolution engine of
`src/game/combat.py` (class `CombatSystem`, nested class `Enemy`).

Modelling conventions:
* Python numbers that may be non-integral (damage multipliers, resistance
  factors, flee chances) are modelled as exact unnormalised fractions
  (structure `Flt`, numerator over positive denominator).  All float
  literals appearing in the source are exact decimals, so exact fraction
  arithmetic mirrors the source computations; `int(x)` is truncation
  toward zero (`Int.tdiv`), `x // 2` is floor division (`Int.fdiv`).
* The player record is the Python dict created by `main.py` / the tests;
  keys read through `.get` with a default are modelled as `Option` fields.
* Calls of `random.randint` and `random.random` are modelled by an
  explicit stream (`Rng`): each call consumes the next value of the
  corresponding stream.  A drawn value stands for the value Python would
  have returned, so range facts (for example `1 ≤ roll ≤ 100`) appear as
  hypotheses where a theorem needs them.
* A Python exception that escapes the engine is the `exn` outcome; the
  combat state carried by `exn` is the partially mutated state at the
  moment of the raise, exactly as the in-place mutations of the source
  leave it.
* The module level handle `combat_system` of combat.py is initialised to
  `None` and never assigned anywhere in the repository, which matters for
  `Enemy.process_status_effects` (see its comment).
* Message strings follow the source; emoji, colour codes and interpolated
  numbers are reproduced where cheap (integers via `toString`), and
  apostrophes of the source texts are elided.
-/

/-- Exact fraction standing for a Python int or float value: `n / d` with
`d` positive by construction at every use site. -/
structure Flt where
  n : Int
  d : Int
deriving DecidableEq, Repr

/-- Embeds a Python int into `Flt`. -/
def Flt.ofInt (i : Int) : Flt := ⟨i, 1⟩

/-- Python `*` on numbers. -/
def Flt.mul (a b : Flt) : Flt := ⟨a.n * b.n, a.d * b.d⟩

/-- Python `+` on numbers. -/
def Flt.add (a b : Flt) : Flt := ⟨a.n * b.d + b.n * a.d, a.d * b.d⟩

/-- Python `<` on numbers (denominators positive at every use site). -/
def Flt.lt (a b : Flt) : Bool := a.n * b.d < b.n * a.d

/-- Python `min` of two numbers. -/
def Flt.fmin (a b : Flt) : Flt := if Flt.lt b a then b else a

/-- Python `max` of two numbers. -/
def Flt.fmax (a b : Flt) : Flt := if Flt.lt a b then b else a

/-- Python `int(x)`: truncation toward zero. -/
def pyInt (f : Flt) : Int := Int.tdiv f.n f.d

/-- Python `x // 2` applied to a number (floor division). -/
def Flt.floordiv2 (f : Flt) : Flt := Flt.ofInt (Int.fdiv f.n (f.d * 2))

/-- Enum `CombatState` of combat.py. -/
inductive CombatState where
  | active
  | player_turn
  | enemy_turn
  | victory
  | defeat
  | flee
deriving DecidableEq, Repr

/-- Enum `DamageType` of combat.py; `trueDamage` is the member `TRUE`
with value "true". -/
inductive DamageType where
  | physical
  | fire
  | ice
  | lightning
  | poison
  | holy
  | dark
  | trueDamage
deriving DecidableEq, Repr

/-- The `.value` string of a `DamageType` member. -/
def DamageType.value : DamageType → String
  | .physical => "physical"
  | .fire => "fire"
  | .ice => "ice"
  | .lightning => "lightning"
  | .poison => "poison"
  | .holy => "holy"
  | .dark => "dark"
  | .trueDamage => "true"

/-- The lookup `DamageType[s.upper()]` of combat.py line 886, as a single
table keyed by the lower-case string stored in the ability catalog:
`some` is a successful member lookup, `none` is a `KeyError`. -/
def damage_type_lookup : String → Option DamageType
  | "physical" => some .physical
  | "fire" => some .fire
  | "ice" => some .ice
  | "lightning" => some .lightning
  | "poison" => some .poison
  | "holy" => some .holy
  | "dark" => some .dark
  | "true" => some .trueDamage
  | _ => none

/-- The argument actually passed to `Enemy.take_damage` for its
`damage_type` parameter.  Combat internal call sites pass a `DamageType`
member; `player_use_item` passes the dict value it reads under the
damage_type key through `.get`, which is a
raw string or `None`. -/
inductive PyDT where
  | dtype (d : DamageType)
  | strArg (s : String)
  | noneArg
deriving DecidableEq, Repr

/-- An entry of an enemy `status_effects` list
(a dict with the keys name, duration and stacks, the latter fixed at 1). -/
structure StatusInstance where
  name : String
  duration : Int
  stack_count : Int
deriving DecidableEq, Repr

/-- A dict appended to `player_buffs` (`player_defend`, item buffs).
Optional fields model presence of the corresponding dict key. -/
structure Buff where
  name : String
  damage_mult : Option Flt
  defense_mult : Option Flt
  duration : Int
deriving DecidableEq, Repr

/-- A dict appended to `player_debuffs` by `apply_effect`. -/
structure Debuff where
  name : String
  duration : Int
  power : Option Flt
deriving DecidableEq, Repr

/-- The shared player record (a Python dict owned by `main.py`); exactly
the keys the combat module reads or writes.  `speed` and `accuracy_mod`
are read through `.get`, so they are `Option` fields. -/
structure Player where
  health : Int
  max_health : Int
  mana : Int
  strength : Int
  defense : Int
  speed : Option Int
  accuracy_mod : Option Flt
  level : Int
  xp : Int
  xp_to_next : Int
  gold : Int
  inventory : List String
  abilities : List String
deriving DecidableEq, Repr

/-- An enemy combat instance (`CombatSystem.Enemy.__init__`). -/
structure Enemy where
  etype : String
  max_health : Int
  health : Int
  damage : Int
  defense : Int
  speed : Int
  name : String
  abilities : List String
  attack_patterns : List String
  pattern_index : Nat
  status_effects : List StatusInstance
  buffs : List StatusInstance
  debuffs : List StatusInstance
  xp_reward : Int
  gold_reward : Int
  resistances : List (String × Flt)
  weaknesses : List (String × Flt)
  loot_table : List String
  stunned : Bool
deriving DecidableEq, Repr

/-- An entry of the `self.abilities` catalog built by
`setup_combat_abilities`; optional fields model presence of the dict key. -/
structure Ability where
  name : String
  damage_mult : Flt
  accuracy : Int
  damage_type : Option String
  effect : Option String
  effect_power : Option Flt
  duration : Option Int
  self_effect : Option String
  lifesteal : Option Flt
deriving DecidableEq, Repr

/-- Helper for catalog entries that set only name, multiplier and
accuracy. -/
def Ability.basic (name : String) (dm : Flt) (acc : Int) : Ability :=
  { name := name, damage_mult := dm, accuracy := acc, damage_type := none,
    effect := none, effect_power := none, duration := none,
    self_effect := none, lifesteal := none }

/-- The ability scratch (the catalog entry under that key), the fallback of
`use_ability` and `process_enemy_turn`. -/
def scratch_ability : Ability := Ability.basic "Scratch" ⟨4, 5⟩ 90

/-- The `self.abilities` dict of `setup_combat_abilities` as a lookup
(`none` = key absent). -/
def abilities_catalog : String → Option Ability
  | "scratch" => some scratch_ability
  | "bite" => some { Ability.basic "Bite" ⟨6, 5⟩ 85 with effect := some "bleed" }
  | "stab" => some { Ability.basic "Stab" ⟨13, 10⟩ 80 with effect := some "wound" }
  | "howl" => some { Ability.basic "Howl" ⟨0, 1⟩ 100 with
      effect := some "reduce_defense", effect_power := some ⟨4, 5⟩,
      duration := some 3 }
  | "pack_tactics" => some (Ability.basic "Pack Tactics" ⟨3, 2⟩ 90)
  | "web" => some { Ability.basic "Web Shot" ⟨1, 2⟩ 75 with
      effect := some "slow", duration := some 2 }
  | "poison" => some { Ability.basic "Poison Bite" ⟨9, 10⟩ 70 with
      effect := some "poison", effect_power := some ⟨3, 1⟩, duration := some 4 }
  | "cleave" => some (Ability.basic "Cleave" ⟨7, 5⟩ 80)
  | "charge" => some { Ability.basic "Charge" ⟨9, 5⟩ 70 with
      effect := some "stun", duration := some 1 }
  | "berserk" => some { Ability.basic "Berserk" ⟨13, 10⟩ 90 with
      self_effect := some "increase_damage", duration := some 3 }
  | "shield_block" => some { Ability.basic "Shield Block" ⟨0, 1⟩ 100 with
      self_effect := some "increase_defense", effect_power := some ⟨3, 2⟩,
      duration := some 2 }
  | "bone_shield" => some { Ability.basic "Bone Shield" ⟨0, 1⟩ 100 with
      self_effect := some "damage_shield", effect_power := some ⟨20, 1⟩,
      duration := some 3 }
  | "shadow_bolt" => some { Ability.basic "Shadow Bolt" ⟨3, 2⟩ 85 with
      damage_type := some "dark" }
  | "life_drain" => some { Ability.basic "Life Drain" ⟨11, 10⟩ 80 with
      damage_type := some "dark", lifesteal := some ⟨1, 2⟩ }
  | "curse" => some { Ability.basic "Curse" ⟨0, 1⟩ 70 with
      effect := some "reduce_all", effect_power := some ⟨7, 10⟩,
      duration := some 3 }
  | "regeneration" => some { Ability.basic "Regeneration" ⟨0, 1⟩ 100 with
      self_effect := some "heal_over_time", effect_power := some ⟨10, 1⟩,
      duration := some 3 }
  | "rage" => some { Ability.basic "Rage" ⟨1, 1⟩ 100 with
      self_effect := some "berserk_mode", effect_power := some ⟨13, 10⟩,
      duration := some 4 }
  | "fire_breath" => some { Ability.basic "Fire Breath" ⟨2, 1⟩ 80 with
      damage_type := some "fire", effect := some "burn",
      effect_power := some ⟨8, 1⟩, duration := some 3 }
  | "fear" => some { Ability.basic "Fearsome Presence" ⟨0, 1⟩ 60 with
      effect := some "fear", duration := some 2 }
  | _ => none

/-- The dict read `self.abilities.get` with the scratch entry as default,
of `use_ability` line 867 and `process_enemy_turn` line 856. -/
def abilities_getD (name : String) : Ability :=
  (abilities_catalog name).getD scratch_ability

/-- Per-turn behaviour of a status effect definition (`on_turn` value). -/
inductive OnTurn where
  | dot (amount : Int) (dtype : DamageType)
  | skip
deriving DecidableEq, Repr

/-- An entry of the `self.status_effects` catalog of
`setup_status_effects`; `has_on_end` records whether the dict carries an
`on_end` key (its value is `None` wherever present). -/
structure StatusDef where
  display : String
  on_turn : Option OnTurn
  has_on_end : Bool
deriving DecidableEq, Repr

/-- The `self.status_effects` catalog (`none` = key absent). -/
def status_effects_catalog : String → Option StatusDef
  | "bleed" => some ⟨"Bleeding", some (.dot 5 .trueDamage), true⟩
  | "poison" => some ⟨"Poisoned", some (.dot 4 .poison), true⟩
  | "burn" => some ⟨"Burning", some (.dot 8 .fire), true⟩
  | "slow" => some ⟨"Slowed", none, false⟩
  | "stun" => some ⟨"Stunned", some .skip, false⟩
  | "fear" => some ⟨"Frightened", none, false⟩
  | "wound" => some ⟨"Wounded", none, false⟩
  | "bless" => some ⟨"Blessed", none, false⟩
  | "fortify" => some ⟨"Fortified", none, false⟩
  | "haste" => some ⟨"Hasted", none, false⟩
  | _ => none

/-- Python `Enemy.take_damage`.  The first body line dereferences
`damage_type.value`, so a call whose `damage_type` argument is a raw
string or `None` (the `player_use_item` call site) raises
`AttributeError` before any mutation. -/
def Enemy.take_damage (e : Enemy) (amount : Flt) (damage_type : PyDT) :
    Except String (Enemy × Int) :=
  match damage_type with
  | .strArg _ => .error "AttributeError: str object has no attribute value"
  | .noneArg => .error "AttributeError: NoneType object has no attribute value"
  | .dtype dt =>
    let resist_mult : Flt :=
      match List.lookup dt.value e.resistances with
      | some m => Flt.mul ⟨1, 1⟩ m
      | none => ⟨1, 1⟩
    let resist_mult : Flt :=
      match List.lookup dt.value e.weaknesses with
      | some m => Flt.mul resist_mult m
      | none => resist_mult
    let final_damage : Int := pyInt (Flt.mul amount resist_mult)
    let final_damage : Int :=
      if dt = .physical then max 1 (final_damage - e.defense) else final_damage
    .ok ({ e with health := e.health - final_damage }, final_damage)

/-- Python `Enemy.heal`. -/
def Enemy.heal (e : Enemy) (amount : Int) : Enemy × Int :=
  let new_health := min e.max_health (e.health + amount)
  ({ e with health := new_health }, new_health - e.health)

/-- Python `Enemy.is_alive`. -/
def Enemy.is_alive (e : Enemy) : Bool := 0 < e.health

/-- Python `Enemy.get_next_ability`: reads
`attack_patterns[pattern_index % len(attack_patterns)]` then advances the
index; an empty pattern list would raise `ZeroDivisionError`. -/
def Enemy.get_next_ability (e : Enemy) : Except String (String × Enemy) :=
  if e.attack_patterns.length = 0 then
    .error "ZeroDivisionError: integer modulo by zero"
  else
    .ok (e.attack_patterns.getD (e.pattern_index % e.attack_patterns.length) "",
      { e with pattern_index := e.pattern_index + 1 })

/-- Python `Enemy.apply_status`. -/
def Enemy.apply_status (e : Enemy) (effect : String) (duration : Int) : Enemy :=
  { e with status_effects :=
      e.status_effects ++ [{ name := effect, duration := duration, stack_count := 1 }] }

/-- Python `Enemy.process_status_effects`.  Its loop body evaluates
`combat_system.status_effects`, but the module level `combat_system`
handle is `None` (combat.py line 1189) and is never assigned anywhere in
the repository, so the first iteration raises `AttributeError`; with no
active effects the loop body never runs and the method returns normally. -/
def Enemy.process_status_effects (e : Enemy) : Except String Enemy :=
  match e.status_effects with
  | [] => .ok e
  | _ :: _ => .error "AttributeError: NoneType object has no attribute status_effects"

/-- Which combatant a resolver argument refers to: the `self.player` dict
or the `self.enemy` object.  The duck typing tests of the source
(hasattr of damage on the user, hasattr of apply_status on the target,
isinstance dict on the target, hasattr of heal on the user) distinguish exactly
these two cases. -/
inductive Side where
  | playerSide
  | enemySide
deriving DecidableEq, Repr

/-- The mutable state of a `CombatSystem` instance (the fields the modelled
operations read or write; the write-only `battle_flags` dict is omitted). -/
structure Combat where
  player : Player
  enemy : Enemy
  state : CombatState
  turn_count : Nat
  combat_log : List String
  player_buffs : List Buff
  enemy_buffs : List Buff
  player_debuffs : List Debuff
  enemy_debuffs : List StatusInstance
deriving DecidableEq, Repr

/-- Explicit stream of pseudo random draws: `intDraws` enumerates the
successive results of `random.randint` calls, `realDraws` those of
`random.random` calls; the indices point at the next unconsumed draw. -/
structure Rng where
  intDraws : Nat → Int
  intIdx : Nat
  realDraws : Nat → Flt
  realIdx : Nat

/-- Consumes the next `random.randint` result. -/
def Rng.nextInt (g : Rng) : Int × Rng :=
  (g.intDraws g.intIdx, { g with intIdx := g.intIdx + 1 })

/-- Consumes the next `random.random` result. -/
def Rng.nextReal (g : Rng) : Flt × Rng :=
  (g.realDraws g.realIdx, { g with realIdx := g.realIdx + 1 })

/-- Outcome of a combat operation: `ok` is a normal return carrying the
returned string, `exn` is a Python exception escaping the operation; both
carry the combat state as the in-place mutations left it. -/
inductive POut where
  | ok (msg : String) (c : Combat) (g : Rng)
  | exn (err : String) (c : Combat) (g : Rng)

/-- The combat state carried by an outcome. -/
def POut.combat : POut → Combat
  | .ok _ c _ => c
  | .exn _ c _ => c

/-- The message (return value or exception text) of an outcome. -/
def POut.msg : POut → String
  | .ok m _ _ => m
  | .exn m _ _ => m

/-- The rng carried by an outcome. -/
def POut.rng : POut → Rng
  | .ok _ _ g => g
  | .exn _ _ g => g

/-- Whether the outcome is an escaping exception. -/
def POut.crashed : POut → Bool
  | .ok _ _ _ => false
  | .exn _ _ _ => true

/-- Sequencing that propagates an exception (Python control flow). -/
def POut.thenWith (r : POut) (f : String → Combat → Rng → POut) : POut :=
  match r with
  | .ok m c g => f m c g
  | .exn e c g => .exn e c g

/-- Python `CombatSystem.add_to_log`. -/
def add_to_log (c : Combat) (message : String) : Combat :=
  let log := c.combat_log ++ [message]
  { c with combat_log := if 10 < log.length then log.tail else log }

/-- Python `CombatSystem.apply_effect`: applies a status effect to the
target; an enemy target gets an `apply_status` entry, the player dict gets
a dict appended to `player_debuffs`; an effect name outside the catalog is
a silent no-op returning `None`. -/
def apply_effect (c : Combat) (effect_name : String) (target : Side)
    (duration : Int) (power : Option Flt) : Combat × Option String :=
  match status_effects_catalog effect_name with
  | none => (c, none)
  | some effect_data =>
    let c :=
      match target with
      | .enemySide => { c with enemy := c.enemy.apply_status effect_name duration }
      | .playerSide =>
        { c with player_debuffs := c.player_debuffs ++
            [{ name := effect_name, duration := duration, power := power }] }
    let target_name := match target with
      | .enemySide => c.enemy.name
      | .playerSide => "You"
    (c, some (target_name ++ " is now " ++ effect_data.display ++ "!"))

/-- Damage application step of `use_ability` (combat.py lines 888-891):
the computed damage, when positive, is dealt through
`target.take_damage`; the player dict as target has no `take_damage`
attribute, so that dereference raises `AttributeError`. -/
def ua_apply_damage (c : Combat) (damage : Int) (dt : DamageType)
    (target : Side) : Except String (Combat × Int) :=
  if 0 < damage then
    match target with
    | .enemySide =>
      match c.enemy.take_damage (Flt.ofInt damage) (.dtype dt) with
      | .ok (e, dealt) => .ok ({ c with enemy := e }, dealt)
      | .error err => .error err
    | .playerSide => .error "AttributeError: dict object has no attribute take_damage"
  else .ok (c, 0)

/-- Optional status application step of `use_ability` (lines 906-926):
one call resolves the `effect` key on the target, a second the
`self_effect` key on the user; a produced message is appended to the
result parts. -/
def ua_apply_opt_effect (c : Combat) (eff : Option String) (who : Side)
    (duration : Int) (power : Option Flt) (parts : List String) :
    Combat × List String :=
  match eff with
  | none => (c, parts)
  | some e =>
    match apply_effect c e who duration power with
    | (c, none) => (c, parts)
    | (c, some m) => (c, parts ++ [m])

/-- Lifesteal step of `use_ability` (lines 928-940). -/
def ua_lifesteal (c : Combat) (ls : Option Flt) (user : Side)
    (damage_dealt : Int) (user_name : String) (parts : List String) :
    Combat × List String :=
  match ls with
  | none => (c, parts)
  | some frac =>
    if 0 < damage_dealt then
      match user with
      | .enemySide =>
        let heal_amount := pyInt (Flt.mul (Flt.ofInt damage_dealt) frac)
        let (e, actual) := c.enemy.heal heal_amount
        ({ c with enemy := e },
          parts ++ [user_name ++ " drains " ++ toString actual ++ " health!"])
      | .playerSide =>
        let heal_amount := pyInt (Flt.mul (Flt.ofInt damage_dealt) frac)
        let p := c.player
        let p := { p with health := min p.max_health (p.health + heal_amount) }
        ({ c with player := p },
          parts ++ ["You drain " ++ toString heal_amount ++ " health!"])
    else (c, parts)

/-- Python `CombatSystem.use_ability`: the shared ability resolver.  An
unknown ability name falls back to `scratch`; the accuracy check, damage
computation and damage type lookup are followed by the damage, effect,
self-effect and lifesteal steps above. -/
def use_ability (c : Combat) (user : Side) (ability_name : String)
    (target : Side) (g : Rng) : POut :=
  let ability := abilities_getD ability_name
  let (roll, g) := g.nextInt
  let user_name := match user with
    | .enemySide => c.enemy.name
    | .playerSide => "You"
  if ability.accuracy < roll then
    .ok (user_name ++ " tries to use " ++ ability.name ++ " but misses!") c g
  else
    let base_damage : Int := match user with
      | .enemySide => c.enemy.damage
      | .playerSide => c.player.strength
    let damage : Int := pyInt (Flt.mul (Flt.ofInt base_damage) ability.damage_mult)
    match damage_type_lookup (ability.damage_type.getD "physical") with
    | none => .exn "KeyError: unknown damage type" c g
    | some damage_type =>
      match ua_apply_damage c damage damage_type target with
      | .error err => .exn err c g
      | .ok (c, damage_dealt) =>
        let target_name := match target with
          | .enemySide => c.enemy.name
          | .playerSide => "you"
        let parts : List String :=
          if 0 < damage_dealt then
            [user_name ++ " uses " ++ ability.name ++ " on " ++ target_name ++
              " for " ++ toString damage_dealt ++ " damage!"]
          else
            [user_name ++ " uses " ++ ability.name ++ "!"]
        let (c, parts) := ua_apply_opt_effect c ability.effect target
          (ability.duration.getD 2) ability.effect_power parts
        let (c, parts) := ua_apply_opt_effect c ability.self_effect user
          (ability.duration.getD 2) ability.effect_power parts
        let (c, parts) := ua_lifesteal c ability.lifesteal user damage_dealt
          user_name parts
        .ok (String.intercalate " " parts) c g

/-- Python `CombatSystem.player_attack`. -/
def player_attack (c : Combat) (g : Rng) : POut :=
  let base_hit : Flt := match c.player.accuracy_mod with
    | some m => Flt.mul (Flt.ofInt 85) m
    | none => Flt.ofInt 85
  let (roll, g) := g.nextInt
  if Flt.lt base_hit (Flt.ofInt roll) then
    .ok "Your attack misses!" (add_to_log c "Your attack misses!") g
  else
    let (base_damage, g) := g.nextInt
    let damage : Flt := c.player_buffs.foldl
      (fun d b => match b.damage_mult with
        | some m => Flt.mul d m
        | none => d)
      (Flt.ofInt base_damage)
    match c.enemy.take_damage damage (.dtype .physical) with
    | .error err => .exn err c g
    | .ok (e, actual_damage) =>
      let c := { c with enemy := e }
      let result := "You attack for " ++ toString actual_damage ++ " damage!"
      let c := add_to_log c result
      let (crit_roll, g) := g.nextInt
      if crit_roll = 20 then
        match c.enemy.take_damage (Flt.floordiv2 damage) (.dtype .physical) with
        | .error err => .exn err c g
        | .ok (e, crit_damage) =>
          .ok (result ++ " Critical hit for additional " ++
              toString crit_damage ++ " damage!")
            { c with enemy := e } g
      else
        .ok result c g

/-- The buff dict appended by `player_defend`. -/
def defending_buff : Buff :=
  { name := "defending", damage_mult := none, defense_mult := some ⟨3, 2⟩,
    duration := 2 }

/-- Python `CombatSystem.player_defend`. -/
def player_defend (c : Combat) : String × Combat :=
  let c := { c with player_buffs := c.player_buffs ++ [defending_buff] }
  let result := "You take a defensive stance. Your defense is increased for 2 turns!"
  (result, add_to_log c result)

/-- An entry of the `player_abilities` dict of
`CombatSystem.get_player_ability`. -/
structure PlayerAbility where
  name : String
  damage_mult : Flt
  mana_cost : Int
  accuracy : Option Int
  damage_type : Option String
  effect : Option String
  heal : Option Int
deriving DecidableEq, Repr

/-- Python `CombatSystem.get_player_ability`: the player ability catalog;
an unknown name yields the empty dict, modelled as `none`. -/
def get_player_ability : String → Option PlayerAbility
  | "power_attack" => some
      { name := "Power Attack", damage_mult := ⟨3, 2⟩, mana_cost := 5,
        accuracy := some 75, damage_type := none, effect := none, heal := none }
  | "quick_strike" => some
      { name := "Quick Strike", damage_mult := ⟨4, 5⟩, mana_cost := 3,
        accuracy := some 95, damage_type := none, effect := none, heal := none }
  | "shield_bash" => some
      { name := "Shield Bash", damage_mult := ⟨1, 1⟩, mana_cost := 4,
        accuracy := some 80, damage_type := none, effect := some "stun",
        heal := none }
  | "healing_light" => some
      { name := "Healing Light", damage_mult := ⟨0, 1⟩, mana_cost := 10,
        accuracy := none, damage_type := none, effect := none, heal := some 25 }
  | "fireball" => some
      { name := "Fireball", damage_mult := ⟨9, 5⟩, mana_cost := 15,
        accuracy := some 70, damage_type := some "fire", effect := none,
        heal := none }
  | _ => none

/-- Python `CombatSystem.player_ability`: checks the known-ability list
and the mana cost (both against `get_player_ability`), then resolves
through `use_ability` — which looks the name up in the shared
`self.abilities` catalog instead. -/
def player_ability (c : Combat) (ability_name : Option String) (g : Rng) : POut :=
  let shown := match ability_name with
    | some s => s
    | none => "None"
  match ability_name with
  | none => .ok ("You dont have the ability " ++ shown ++ "!") c g
  | some aname =>
    if aname ∉ c.player.abilities then
      .ok ("You dont have the ability " ++ shown ++ "!") c g
    else
      let ability_data := get_player_ability aname
      let cost : Int := match ability_data with
        | some d => d.mana_cost
        | none => 0
      if c.player.mana < cost then
        .ok "Not enough mana!" c g
      else
        (use_ability c .playerSide aname .enemySide g).thenWith fun m c g =>
          let c := match ability_data with
            | some d => { c with player :=
                { c.player with mana := c.player.mana - d.mana_cost } }
            | none => c
          .ok m (add_to_log c m) g

/-- An entry of an item effect list of `CombatSystem.get_item_effects`. -/
inductive ItemEffect where
  | healE (amount : Int)
  | damageE (amount : Int) (dtype : Option String)
  | buffE (b : Buff)
  | manaE (amount : Int)
  | statusE (name : String) (duration : Int)
deriving DecidableEq, Repr

/-- Python `CombatSystem.get_item_effects` (the source lower-cases the
item name first; the table is keyed by the lower-case names). -/
def get_item_effects : String → List ItemEffect
  | "health_potion" => [.healE 30]
  | "mana_potion" => [.manaE 20]
  | "bomb" => [.damageE 25 (some "fire")]
  | "poison_dagger" => [.damageE 15 none, .statusE "poison" 3]
  | _ => []

/-- One iteration of the effect loop of `player_use_item`: `heal`,
`damage` and `buff` types are handled, any other type is skipped; the
`damage` branch passes the raw damage_type value read by `.get` (a string or
`None`) to `Enemy.take_damage`, which raises `AttributeError`. -/
def apply_item_effect (c : Combat) (msgs : List String) (eff : ItemEffect) :
    Except String (Combat × List String) :=
  match eff with
  | .healE amount =>
    let p := c.player
    let heal_amount := min amount (p.max_health - p.health)
    .ok ({ c with player := { p with health := p.health + heal_amount } },
      msgs ++ ["Healed for " ++ toString heal_amount ++ " health!"])
  | .damageE amount dtype =>
    let arg : PyDT := match dtype with
      | some s => .strArg s
      | none => .noneArg
    match c.enemy.take_damage (Flt.ofInt amount) arg with
    | .error err => .error err
    | .ok (e, dealt) =>
      .ok ({ c with enemy := e },
        msgs ++ ["Dealt " ++ toString dealt ++ " damage to " ++ c.enemy.name ++ "!"])
  | .buffE b =>
    .ok ({ c with player_buffs := c.player_buffs ++ [b] },
      msgs ++ ["Gained " ++ b.name ++ "!"])
  | .manaE _ => .ok (c, msgs)
  | .statusE _ _ => .ok (c, msgs)

/-- The effect loop of `player_use_item`. -/
def apply_item_effects (c : Combat) (msgs : List String) :
    List ItemEffect → Except String (Combat × List String)
  | [] => .ok (c, msgs)
  | eff :: rest =>
    match apply_item_effect c msgs eff with
    | .error err => .error err
    | .ok (c, msgs) => apply_item_effects c msgs rest

/-- Python `CombatSystem.player_use_item`. -/
def player_use_item (c : Combat) (item_name : Option String) (g : Rng) : POut :=
  let shown := match item_name with
    | some s => s
    | none => "None"
  match item_name with
  | none => .ok ("You dont have " ++ shown ++ "!") c g
  | some iname =>
    if iname ∉ c.player.inventory then
      .ok ("You dont have " ++ shown ++ "!") c g
    else
      match apply_item_effects c [] (get_item_effects iname) with
      | .error err => .exn err c g
      | .ok (c, msgs) =>
        let c := { c with player :=
          { c.player with inventory := c.player.inventory.erase iname } }
        let result_str := String.intercalate "\n" msgs
        let c := add_to_log c ("Used " ++ iname ++ ": " ++ result_str)
        .ok ("You use " ++ iname ++ "!\n" ++ result_str) c g

/-- Python `CombatSystem.player_flee`: a single uniform draw against the
clamped chance `max(0.1, min(0.7, 0.3 + (player_speed - enemy_speed) * 0.05))`. -/
def player_flee (c : Combat) (g : Rng) : POut :=
  let player_speed : Int := c.player.speed.getD 10
  let flee_chance : Flt :=
    Flt.add ⟨3, 10⟩ (Flt.mul (Flt.ofInt (player_speed - c.enemy.speed)) ⟨1, 20⟩)
  let flee_chance : Flt := Flt.fmax ⟨1, 10⟩ (Flt.fmin ⟨7, 10⟩ flee_chance)
  let (draw, g) := g.nextReal
  if Flt.lt draw flee_chance then
    let c := { c with state := CombatState.flee }
    let result := "You successfully flee from combat!"
    .ok result (add_to_log c result) g
  else
    let result := "You failed to flee!"
    .ok result (add_to_log c result) g

/-- Python `CombatSystem.process_enemy_turn`. -/
def process_enemy_turn (c : Combat) (g : Rng) : POut :=
  if ¬ c.enemy.is_alive then .ok "" c g
  else if c.enemy.stunned then
    .ok (c.enemy.name ++ " is stunned and cannot act!")
      { c with enemy := { c.enemy with stunned := false } } g
  else
    match c.enemy.process_status_effects with
    | .error err => .exn err c g
    | .ok e =>
      let c := { c with enemy := e }
      match c.enemy.get_next_ability with
      | .error err => .exn err c g
      | .ok (ability_name, e) =>
        let c := { c with enemy := e }
        (use_ability c .enemySide ability_name .playerSide g).thenWith
          fun m c g => .ok m (add_to_log c m) g

/-- Python `CombatSystem.level_up`. -/
def level_up (c : Combat) : String × Combat :=
  let p := c.player
  let p := { p with
    level := p.level + 1,
    xp := p.xp - p.xp_to_next,
    xp_to_next := pyInt (Flt.mul (Flt.ofInt p.xp_to_next) ⟨3, 2⟩) }
  let p := { p with
    max_health := p.max_health + 10,
    strength := p.strength + 2,
    defense := p.defense + 1 }
  let p := { p with health := p.max_health }
  ("LEVEL UP! You are now level " ++ toString p.level ++ "!",
    { c with player := p })

/-- The loot roll loop of `CombatSystem.get_loot`: an independent
`random.random() < 0.3` roll per loot table entry, each success appended
to loot and to the player inventory. -/
def get_loot_rolls (c : Combat) (loot : List String) (g : Rng) :
    List String → Combat × List String × Rng
  | [] => (c, loot, g)
  | item :: rest =>
    let (draw, g) := g.nextReal
    if Flt.lt draw ⟨3, 10⟩ then
      let c := { c with player :=
        { c.player with inventory := c.player.inventory ++ [item] } }
      get_loot_rolls c (loot ++ [item]) g rest
    else
      get_loot_rolls c loot g rest

/-- Python `CombatSystem.get_loot`. -/
def get_loot (c : Combat) (g : Rng) : Combat × List String × Rng :=
  get_loot_rolls c [] g c.enemy.loot_table

/-- Python `CombatSystem.process_victory`: awards the XP and gold fixed on
the enemy instance, runs the level-up check, rolls loot. -/
def process_victory (c : Combat) (g : Rng) : String × Combat × Rng :=
  let xp_gained := c.enemy.xp_reward
  let c := { c with player := { c.player with xp := c.player.xp + xp_gained } }
  let gold_gained := c.enemy.gold_reward
  let c := { c with player := { c.player with gold := c.player.gold + gold_gained } }
  let (level_msg, c) :=
    if c.player.xp_to_next ≤ c.player.xp then
      let (m, c) := level_up c
      ([m], c)
    else ([], c)
  let (c, loot, g) := get_loot c g
  let loot_msg := if loot.isEmpty then [] else
    ["Loot: " ++ String.intercalate ", " loot]
  let parts := ["VICTORY! You defeated the " ++ c.enemy.name ++ "!",
    "Gained " ++ toString xp_gained ++ " experience!",
    "Found " ++ toString gold_gained ++ " gold!"] ++ level_msg ++ loot_msg
  (String.intercalate "\n" parts, add_to_log c "Victory!", g)

/-- Python `CombatSystem.process_defeat`. -/
def process_defeat (c : Combat) : String × Combat :=
  ("DEFEAT! You were slain by the " ++ c.enemy.name ++ "!",
    add_to_log c "Defeat!")

/-- The action dispatch of `process_player_turn` (the if/elif chain on the
action string); `none` is the unrecognized-action case. -/
def action_step (c : Combat) (action : String) (target item : Option String)
    (g : Rng) : Option POut :=
  if action = "attack" then some (player_attack c g)
  else if action = "defend" then
    some (let (m, c) := player_defend c; .ok m c g)
  else if action = "ability" then some (player_ability c target g)
  else if action = "use_item" then some (player_use_item c item g)
  else if action = "flee" then some (player_flee c g)
  else none

/-- The message returned when `process_player_turn` is called out of
turn. -/
def not_your_turn_msg : String := "It is not your turn!"

/-- The phase of `process_player_turn` after the action resolved: victory
short-circuit, otherwise the automatic enemy turn, the defeat check, and
the (dead) `ACTIVE` check of combat.py lines 707-708. -/
def after_action (r : POut) : POut :=
  r.thenWith fun m c g =>
    if ¬ c.enemy.is_alive then
      let c := { c with state := CombatState.victory }
      let (vmsg, c, g) := process_victory c g
      .ok (m ++ "\n" ++ vmsg) c g
    else
      let c := { c with state := CombatState.enemy_turn,
                        turn_count := c.turn_count + 1 }
      (process_enemy_turn c g).thenWith fun emsg c g =>
        let (dmsg, c) :=
          if c.player.health ≤ 0 then
            let c := { c with state := CombatState.defeat }
            let (dm, c) := process_defeat c
            ([dm], c)
          else ([], c)
        let c := if c.state = CombatState.active then
            { c with state := CombatState.player_turn }
          else c
        .ok (String.intercalate "\n" ([m, emsg] ++ dmsg)) c g

/-- Python `CombatSystem.process_player_turn`. -/
def process_player_turn (c : Combat) (action : String)
    (target item : Option String) (g : Rng) : POut :=
  if c.state ≠ CombatState.player_turn then
    .ok not_your_turn_msg c g
  else
    match action_step c action target item g with
    | none => .ok "Invalid combat action!" c g
    | some r => after_action r

/-- The `goblin` entry of `setup_enemy_types`, instantiated at level
multiplier 1.0 with the given spawn-time gold roll
(`random.randint(3, 8)`). -/
def goblin_enemy (gold_roll : Int) : Enemy :=
  { etype := "goblin", max_health := 25, health := 25, damage := 5,
    defense := 3, speed := 12, name := "Goblin",
    abilities := ["scratch", "dodge"],
    attack_patterns := ["basic", "basic", "dodge"], pattern_index := 0,
    status_effects := [], buffs := [], debuffs := [],
    xp_reward := 15, gold_reward := gold_roll,
    resistances := [], weaknesses := [("physical", ⟨6, 5⟩)],
    loot_table := ["goblin_ear", "rusty_dagger", "copper_coin"],
    stunned := false }

/-- The player dict of `main.py` (the keys the combat module touches;
`speed` and `accuracy_mod` are absent there). -/
def sample_player : Player :=
  { health := 100, max_health := 100, mana := 50, strength := 10,
    defense := 10, speed := none, accuracy_mod := none, level := 1,
    xp := 0, xp_to_next := 100, gold := 50, inventory := [],
    abilities := [] }

/-- A fresh combat session against a goblin, as `start_combat` leaves it. -/
def sample_combat : Combat :=
  { player := sample_player, enemy := goblin_enemy 5,
    state := CombatState.player_turn, turn_count := 0, combat_log := [],
    player_buffs := [], enemy_buffs := [], player_debuffs := [],
    enemy_debuffs := [] }

/-- Builds an rng stream from finite lists of draws. -/
def mkRng (is : List Int) (rs : List Flt) : Rng :=
  { intDraws := fun n => is.getD n 0, intIdx := 0,
    realDraws := fun n => rs.getD n ⟨0, 1⟩, realIdx := 0 }

/-- Concrete enemy carrying the same damage type in both maps. -/
def e8 : Enemy :=
  { goblin_enemy 5 with
    resistances := [("fire", ⟨1, 2⟩)],
    weaknesses := [("fire", ⟨3, 2⟩)] }

/-- A combat session whose player has strength 1. -/
def c9_combat : Combat :=
  { sample_combat with player := { sample_player with strength := 1 } }

/-- The rng stream of the C1 scenario: player hit roll 50, damage roll 10,
crit roll 1, enemy accuracy roll 95 (the enemy action misses). -/
def rng_c1 : Rng := mkRng [50, 10, 1, 95] []

/-- The rng stream of the C2 scenario: the flee draw 0.0 is below the
clamped flee chance 0.2, the enemy accuracy roll 95 misses. -/
def rng_c2 : Rng := mkRng [95] [⟨0, 1⟩]

/-- A combat session whose player carries a bomb. -/
def bomb_combat : Combat :=
  { sample_combat with player := { sample_player with inventory := ["bomb"] } }

/-- A combat session whose player knows `power_attack` and has 10 mana. -/
def c6_combat : Combat :=
  { sample_combat with player :=
    { sample_player with abilities := ["power_attack"], mana := 10 } }

/-- The rng stream of the C6 scenario: ability accuracy roll 80, enemy
accuracy roll 95 (the enemy action misses). -/
def rng_c6 : Rng := mkRng [80, 95] []

/-- Maps a function over the combat state carried by an outcome. -/
def POut.mapC (f : Combat → Combat) : POut → POut
  | .ok m c g => .ok m (f c) g
  | .exn e c g => .exn e (f c) g

/-- Replaces the player buff list of a combat state. -/
def withBuffs (bs : List Buff) (c : Combat) : Combat :=
  { c with player_buffs := bs }

/-- Prepends entries to the player debuff list of a combat state. -/
def pdFrame (l : List Debuff) (c : Combat) : Combat :=
  { c with player_debuffs := l ++ c.player_debuffs }

/-- A fresh session against a goblin that one connecting hit kills. -/
def c5_base : Combat :=
  ⟨sample_player, { goblin_enemy 5 with health := 1 },
    CombatState.player_turn, 0, [], [], [], [], []⟩

/-- The rng stream of the C5 witness: hit roll 50, damage roll 10,
crit roll 1. -/
def rng_c5 : Rng := mkRng [50, 10, 1] []

/-- The action resolution of the C5 witness. -/
def c5_step : POut := player_attack c5_base rng_c5

/-- Multiplying by the literal 1.0 of `resist_mult = 1.0` is the
identity. -/
theorem Flt.one_mul_eq (r : Flt) : Flt.mul ⟨1, 1⟩ r = r := by
  cases r with
  | mk n d => simp [Flt.mul]

/-- Shared helper: a call in any state other than `PLAYER_TURN` is
rejected without any mutation. -/
theorem ppt_rejects (c : Combat) (action : String) (target item : Option String)
    (g : Rng) (h : c.state ≠ CombatState.player_turn) :
    process_player_turn c action target item g = .ok not_your_turn_msg c g := by
  simp [process_player_turn, h]

/-- C4: a `process_player_turn` call in state `ENEMY_TURN`, `VICTORY`,
`DEFEAT` or `FLEE` returns the rejection message and leaves the entire
combat state (player record, enemy, turn counter, log, buff and debuff
lists, and the state itself) unchanged. -/
theorem C4_out_of_turn_rejected (c : Combat) (action : String)
    (target item : Option String) (g : Rng)
    (h : c.state = CombatState.enemy_turn ∨ c.state = CombatState.victory ∨
      c.state = CombatState.defeat ∨ c.state = CombatState.flee) :
    process_player_turn c action target item g = .ok not_your_turn_msg c g := by
  apply ppt_rejects
  rcases h with h | h | h | h <;> simp [h]

/-- Witness for C4 at a concrete victory-state session. -/
theorem C4_out_of_turn_rejected_witness :
    ({ sample_combat with state := CombatState.victory } : Combat).state =
        CombatState.victory ∧
      process_player_turn { sample_combat with state := CombatState.victory }
        "attack" none none (mkRng [] []) =
        .ok not_your_turn_msg { sample_combat with state := CombatState.victory }
          (mkRng [] []) :=
  ⟨rfl, C4_out_of_turn_rejected _ "attack" none none _ (Or.inr (Or.inl rfl))⟩

/-- C8: when a damage type occurs in both the resistance and the weakness
map of the target, `Enemy.take_damage` multiplies the incoming amount by
the product of the two factors (both apply, neither excludes the other). -/
theorem C8_resistance_and_weakness_both_apply (e : Enemy) (amount : Flt)
    (dt : DamageType) (r w : Flt)
    (hr : List.lookup dt.value e.resistances = some r)
    (hw : List.lookup dt.value e.weaknesses = some w) :
    ∃ d : Int,
      e.take_damage amount (.dtype dt) = .ok ({ e with health := e.health - d }, d) ∧
      d = (if dt = DamageType.physical
            then max 1 (pyInt (Flt.mul amount (Flt.mul r w)) - e.defense)
            else pyInt (Flt.mul amount (Flt.mul r w))) := by
  refine ⟨_, ?_, rfl⟩
  unfold Enemy.take_damage
  dsimp only
  rw [hr, hw]
  dsimp only
  rw [Flt.one_mul_eq]

/-- Witness for C8: fire damage against a target carrying fire in both
maps (resistance 0.5, weakness 1.5): `int(8 * 0.75) = 6` is applied. -/
theorem C8_resistance_and_weakness_both_apply_witness :
    List.lookup (DamageType.fire).value e8.resistances = some ⟨1, 2⟩ ∧
    List.lookup (DamageType.fire).value e8.weaknesses = some ⟨3, 2⟩ ∧
    ∃ d : Int,
      e8.take_damage ⟨8, 1⟩ (.dtype .fire) =
        .ok ({ e8 with health := e8.health - d }, d) ∧
      d = (if DamageType.fire = DamageType.physical
            then max 1 (pyInt (Flt.mul ⟨8, 1⟩ (Flt.mul ⟨1, 2⟩ ⟨3, 2⟩)) - e8.defense)
            else pyInt (Flt.mul ⟨8, 1⟩ (Flt.mul ⟨1, 2⟩ ⟨3, 2⟩))) :=
  ⟨rfl, rfl, C8_resistance_and_weakness_both_apply e8 ⟨8, 1⟩ .fire ⟨1, 2⟩ ⟨3, 2⟩ rfl rfl⟩

/-- C9 counterexample: a connecting physical attack with the non-zero
multiplier 0.8 (`scratch`) by a strength-1 user truncates to computed
damage `int(1 * 0.8) = 0`, so `take_damage` is never called and the
health of the target is unchanged — the damage applied is 0, not at least 1. -/
theorem C9_counterexample :
    scratch_ability.damage_mult.n ≠ 0 ∧
    (abilities_getD "scratch").accuracy = 90 ∧
    (use_ability c9_combat .playerSide "scratch" .enemySide
        (mkRng [1] [])).msg = "You uses Scratch!" ∧
    (use_ability c9_combat .playerSide "scratch" .enemySide
        (mkRng [1] [])).combat.enemy.health = c9_combat.enemy.health := by
  refine ⟨by decide, rfl, rfl, rfl⟩

/-- C9 amended: every `take_damage` call with physical damage type applies
at least 1 damage whatever the defense of the target (the defense subtraction
is floor-clamped at 1); the original claim holds whenever the computed
pre-call damage `int(base * mult)` is positive, but an attack whose
computed damage truncates to 0 skips `take_damage` and applies nothing. -/
theorem C9_amended_physical_damage_at_least_one (e : Enemy) (amount : Flt) :
    ∃ d : Int,
      e.take_damage amount (.dtype .physical) =
        .ok ({ e with health := e.health - d }, d) ∧ 1 ≤ d := by
  unfold Enemy.take_damage
  exact ⟨_, rfl, le_max_left 1 _⟩

/-- C1: after a normal attack turn that leaves the enemy alive, with no
flee attempt and the player alive after the automatic enemy action, the
returned state is `ENEMY_TURN`, not `PLAYER_TURN` — the lines
`if self.state == CombatState.ACTIVE: self.state = CombatState.PLAYER_TURN`
never fire because the state is `ENEMY_TURN` at that point, so the next
call is rejected and the session soft-locks. -/
theorem C1_state_never_returns_to_player_turn :
    (process_player_turn sample_combat "attack" none none rng_c1).crashed = false ∧
    (process_player_turn sample_combat "attack" none none rng_c1).combat.enemy.is_alive = true ∧
    (process_player_turn sample_combat "attack" none none rng_c1).combat.player.health = 100 ∧
    (process_player_turn sample_combat "attack" none none rng_c1).combat.state =
      CombatState.enemy_turn ∧
    process_player_turn
        (process_player_turn sample_combat "attack" none none rng_c1).combat
        "attack" none none rng_c1 =
      .ok not_your_turn_msg
        (process_player_turn sample_combat "attack" none none rng_c1).combat rng_c1 := by
  refine ⟨rfl, rfl, rfl, rfl, rfl⟩

/-- C2: a successful flee draw sets the state to `FLEE` inside
`player_flee`, but `process_player_turn` then unconditionally overwrites
it with `ENEMY_TURN`, increments the turn counter and resolves an enemy
action in the same call — the returned state is `ENEMY_TURN`, not `FLEE`,
and the enemy pattern index shows one enemy action was resolved. -/
theorem C2_flee_success_overwritten_by_enemy_turn :
    (process_player_turn sample_combat "flee" none none rng_c2).crashed = false ∧
    (process_player_turn sample_combat "flee" none none rng_c2).msg =
      "You successfully flee from combat!\nGoblin tries to use Scratch but misses!" ∧
    (process_player_turn sample_combat "flee" none none rng_c2).combat.state =
      CombatState.enemy_turn ∧
    (process_player_turn sample_combat "flee" none none rng_c2).combat.enemy.pattern_index = 1 ∧
    (process_player_turn sample_combat "flee" none none rng_c2).combat.turn_count = 1 := by
  refine ⟨rfl, rfl, rfl, rfl, rfl⟩

/-- C3: the combat core can raise.  `use_item` with the catalog item
`bomb` reaches `Enemy.take_damage` with the raw string "fire" as its
`damage_type` argument, whose first dereference `damage_type.value`
raises `AttributeError` — `process_player_turn` escapes with an
exception instead of returning.  (The ability-name fallback of the claim
does hold: an unknown name resolves to `scratch`.) -/
theorem C3_use_item_bomb_raises :
    process_player_turn bomb_combat "use_item" none (some "bomb") (mkRng [] []) =
      .exn "AttributeError: str object has no attribute value" bomb_combat
        (mkRng [] []) ∧
    abilities_getD "no_such_ability" = scratch_ability := by
  exact ⟨rfl, rfl⟩

/-- C6: `player_ability` deducts the mana cost of `power_attack` from
`get_player_ability`, but `use_ability` resolves the name in the shared
`self.abilities` catalog, where `power_attack` is absent, and falls back
to `scratch`: the accuracy roll 80 connects against scratch.accuracy = 90
although 75 < 80 (under the accuracy of the named ability it would miss), and
the damage is `max(1, int(int(10 * 0.8) * 1.2) - 3) = 6` from the 0.8
scratch multiplier, not the 1.5 of `power_attack`. -/
theorem C6_named_ability_parameters_ignored :
    (process_player_turn c6_combat "ability" (some "power_attack") none rng_c6).crashed
        = false ∧
    (process_player_turn c6_combat "ability" (some "power_attack") none
        rng_c6).combat.enemy.health = 19 ∧
    (process_player_turn c6_combat "ability" (some "power_attack") none
        rng_c6).combat.player.mana = 5 ∧
    abilities_catalog "power_attack" = none ∧
    (get_player_ability "power_attack").map PlayerAbility.accuracy = some (some 75) ∧
    (get_player_ability "power_attack").map PlayerAbility.damage_mult = some ⟨3, 2⟩ ∧
    scratch_ability.accuracy = 90 ∧ (75 : Int) < 80 := by
  refine ⟨rfl, rfl, rfl, rfl, rfl, rfl, rfl, by decide⟩

/-- Frame rule: `apply_effect` only ever appends to `player_debuffs`, so
prepended entries pass through untouched. -/
theorem apply_effect_pdFrame (p : Player) (e : Enemy) (st : CombatState)
    (tc : Nat) (log : List String) (pb eb : List Buff) (l pd : List Debuff)
    (ed : List StatusInstance) (n : String) (t : Side) (dur : Int)
    (pow : Option Flt) :
    apply_effect ⟨p, e, st, tc, log, pb, eb, l ++ pd, ed⟩ n t dur pow =
      (fun r => (pdFrame l r.1, r.2))
        (apply_effect ⟨p, e, st, tc, log, pb, eb, pd, ed⟩ n t dur pow) := by
  unfold apply_effect
  cases status_effects_catalog n with
  | none => rfl
  | some sd =>
    cases t <;> simp [Enemy.apply_status, pdFrame, List.append_assoc]

/-- Frame rule for the damage step of the resolver. -/
theorem ua_apply_damage_pdFrame (p : Player) (e : Enemy) (st : CombatState)
    (tc : Nat) (log : List String) (pb eb : List Buff) (l pd : List Debuff)
    (ed : List StatusInstance) (dmg : Int) (dt : DamageType) (t : Side) :
    ua_apply_damage ⟨p, e, st, tc, log, pb, eb, l ++ pd, ed⟩ dmg dt t =
      (ua_apply_damage ⟨p, e, st, tc, log, pb, eb, pd, ed⟩ dmg dt t).map
        (fun r => (pdFrame l r.1, r.2)) := by
  unfold ua_apply_damage
  split
  · cases t with
    | playerSide => rfl
    | enemySide =>
      cases hX : Enemy.take_damage e (Flt.ofInt dmg) (.dtype dt) with
      | error err => simp [hX, Except.map]
      | ok r => simp [hX, pdFrame, Except.map]
  · rfl

/-- Frame rule for the optional status application step of the resolver. -/
theorem ua_apply_opt_effect_pdFrame (p : Player) (e : Enemy) (st : CombatState)
    (tc : Nat) (log : List String) (pb eb : List Buff) (l pd : List Debuff)
    (ed : List StatusInstance) (eff : Option String) (who : Side) (dur : Int)
    (pow : Option Flt) (parts : List String) :
    ua_apply_opt_effect ⟨p, e, st, tc, log, pb, eb, l ++ pd, ed⟩ eff who dur
        pow parts =
      (fun r => (pdFrame l r.1, r.2))
        (ua_apply_opt_effect ⟨p, e, st, tc, log, pb, eb, pd, ed⟩ eff who dur
          pow parts) := by
  unfold ua_apply_opt_effect
  cases eff with
  | none => rfl
  | some en =>
    dsimp only
    rw [apply_effect_pdFrame]
    rcases hX : apply_effect ⟨p, e, st, tc, log, pb, eb, pd, ed⟩ en who dur pow
      with ⟨c2, m2⟩
    cases m2 <;> rfl

/-- Frame rule for the lifesteal step of the resolver. -/
theorem ua_lifesteal_pdFrame (p : Player) (e : Enemy) (st : CombatState)
    (tc : Nat) (log : List String) (pb eb : List Buff) (l pd : List Debuff)
    (ed : List StatusInstance) (ls : Option Flt) (u : Side) (dealt : Int)
    (uname : String) (parts : List String) :
    ua_lifesteal ⟨p, e, st, tc, log, pb, eb, l ++ pd, ed⟩ ls u dealt uname parts =
      (fun r => (pdFrame l r.1, r.2))
        (ua_lifesteal ⟨p, e, st, tc, log, pb, eb, pd, ed⟩ ls u dealt uname parts) := by
  unfold ua_lifesteal
  cases ls with
  | none => rfl
  | some frac =>
    dsimp only
    split
    · cases u with
      | enemySide =>
        rcases hX : Enemy.heal e (pyInt (Flt.mul (Flt.ofInt dealt) frac))
          with ⟨e2, act⟩
        simp [hX, pdFrame]
      | playerSide => rfl
    · rfl

/-- Frame rule: the shared resolver only appends to `player_debuffs` and
never reads it. -/
theorem use_ability_pdFrame (p : Player) (e : Enemy) (st : CombatState)
    (tc : Nat) (log : List String) (pb eb : List Buff) (l pd : List Debuff)
    (ed : List StatusInstance) (u : Side) (an : String) (t : Side) (g : Rng) :
    use_ability ⟨p, e, st, tc, log, pb, eb, l ++ pd, ed⟩ u an t g =
      (use_ability ⟨p, e, st, tc, log, pb, eb, pd, ed⟩ u an t g).mapC
        (pdFrame l) := by
  unfold use_ability
  dsimp only
  split
  · rfl
  · split
    · rfl
    · rw [ua_apply_damage_pdFrame]
      cases hX : ua_apply_damage ⟨p, e, st, tc, log, pb, eb, pd, ed⟩ _ _ t with
      | error err => rfl
      | ok r =>
        obtain ⟨c1, dealt⟩ := r
        obtain ⟨p1, e1, st1, tc1, log1, pb1, eb1, pd1, ed1⟩ := c1
        dsimp only [Except.map, pdFrame]
        rw [ua_apply_opt_effect_pdFrame]
        rcases hY : ua_apply_opt_effect ⟨p1, e1, st1, tc1, log1, pb1, eb1, pd1, ed1⟩ _ t _ _ _
          with ⟨c2, parts2⟩
        obtain ⟨p2, e2, st2, tc2, log2, pb2, eb2, pd2, ed2⟩ := c2
        dsimp only [pdFrame]
        rw [ua_apply_opt_effect_pdFrame]
        rcases hZ : ua_apply_opt_effect ⟨p2, e2, st2, tc2, log2, pb2, eb2, pd2, ed2⟩ _ u _ _ _
          with ⟨c3, parts3⟩
        obtain ⟨p3, e3, st3, tc3, log3, pb3, eb3, pd3, ed3⟩ := c3
        dsimp only [pdFrame]
        rw [ua_lifesteal_pdFrame]
        rcases hW : ua_lifesteal ⟨p3, e3, st3, tc3, log3, pb3, eb3, pd3, ed3⟩ _ u dealt _ _
          with ⟨c4, parts4⟩
        rfl

/-- Frame rule for the basic attack (no debuff access at all). -/
theorem player_attack_pdFrame (p : Player) (e : Enemy) (st : CombatState)
    (tc : Nat) (log : List String) (pb eb : List Buff) (l pd : List Debuff)
    (ed : List StatusInstance) (g : Rng) :
    player_attack ⟨p, e, st, tc, log, pb, eb, l ++ pd, ed⟩ g =
      (player_attack ⟨p, e, st, tc, log, pb, eb, pd, ed⟩ g).mapC (pdFrame l) := by
  unfold player_attack add_to_log
  dsimp only
  split
  · rfl
  · cases hX : Enemy.take_damage e (List.foldl
        (fun d b => match b.damage_mult with
          | some m => Flt.mul d m
          | none => d) (Flt.ofInt (g.nextInt.2.nextInt.1)) pb)
        (.dtype .physical) with
    | error err => simp [hX, POut.mapC, pdFrame]
    | ok r =>
      obtain ⟨e1, dmg⟩ := r
      simp only [hX]
      split
      · cases hY : Enemy.take_damage e1 (Flt.floordiv2 (List.foldl
            (fun d b => match b.damage_mult with
              | some m => Flt.mul d m
              | none => d) (Flt.ofInt (g.nextInt.2.nextInt.1)) pb))
            (.dtype .physical) with
        | error err => simp [hY, POut.mapC, pdFrame]
        | ok r2 => simp [hY, POut.mapC, pdFrame]
      · rfl

/-- Frame rule for the defend action. -/
theorem player_defend_pdFrame (p : Player) (e : Enemy) (st : CombatState)
    (tc : Nat) (log : List String) (pb eb : List Buff) (l pd : List Debuff)
    (ed : List StatusInstance) :
    player_defend ⟨p, e, st, tc, log, pb, eb, l ++ pd, ed⟩ =
      (fun r => (r.1, pdFrame l r.2))
        (player_defend ⟨p, e, st, tc, log, pb, eb, pd, ed⟩) := rfl

/-- Frame rule for the player ability action. -/
theorem player_ability_pdFrame (p : Player) (e : Enemy) (st : CombatState)
    (tc : Nat) (log : List String) (pb eb : List Buff) (l pd : List Debuff)
    (ed : List StatusInstance) (an : Option String) (g : Rng) :
    player_ability ⟨p, e, st, tc, log, pb, eb, l ++ pd, ed⟩ an g =
      (player_ability ⟨p, e, st, tc, log, pb, eb, pd, ed⟩ an g).mapC
        (pdFrame l) := by
  unfold player_ability
  cases an with
  | none => rfl
  | some a =>
    dsimp only
    split
    · rfl
    · split
      · rfl
      · rw [use_ability_pdFrame]
        cases hX : use_ability ⟨p, e, st, tc, log, pb, eb, pd, ed⟩ .playerSide
            a .enemySide g with
        | exn err c2 g2 => rfl
        | ok m c2 g2 =>
          obtain ⟨p2, e2, st2, tc2, log2, pb2, eb2, pd2, ed2⟩ := c2
          cases get_player_ability a <;> rfl

/-- Frame rule for one item effect. -/
theorem apply_item_effect_pdFrame (p : Player) (e : Enemy) (st : CombatState)
    (tc : Nat) (log : List String) (pb eb : List Buff) (l pd : List Debuff)
    (ed : List StatusInstance) (msgs : List String) (eff : ItemEffect) :
    apply_item_effect ⟨p, e, st, tc, log, pb, eb, l ++ pd, ed⟩ msgs eff =
      (apply_item_effect ⟨p, e, st, tc, log, pb, eb, pd, ed⟩ msgs eff).map
        (fun r => (pdFrame l r.1, r.2)) := by
  unfold apply_item_effect
  cases eff with
  | healE amount => rfl
  | damageE amount dtype => cases dtype <;> rfl
  | buffE b => rfl
  | manaE amount => rfl
  | statusE n d => rfl

/-- Frame rule for the item effect loop. -/
theorem apply_item_effects_pdFrame (effs : List ItemEffect) :
    ∀ (p : Player) (e : Enemy) (st : CombatState) (tc : Nat)
      (log : List String) (pb eb : List Buff) (l pd : List Debuff)
      (ed : List StatusInstance) (msgs : List String),
    apply_item_effects ⟨p, e, st, tc, log, pb, eb, l ++ pd, ed⟩ msgs effs =
      (apply_item_effects ⟨p, e, st, tc, log, pb, eb, pd, ed⟩ msgs effs).map
        (fun r => (pdFrame l r.1, r.2)) := by
  induction effs with
  | nil => intros; rfl
  | cons eff rest ih =>
    intro p e st tc log pb eb l pd ed msgs
    unfold apply_item_effects
    rw [apply_item_effect_pdFrame]
    cases hX : apply_item_effect ⟨p, e, st, tc, log, pb, eb, pd, ed⟩ msgs eff with
    | error err => rfl
    | ok r =>
      obtain ⟨c1, msgs1⟩ := r
      obtain ⟨p1, e1, st1, tc1, log1, pb1, eb1, pd1, ed1⟩ := c1
      exact ih p1 e1 st1 tc1 log1 pb1 eb1 l pd1 ed1 msgs1

/-- Frame rule for the use-item action. -/
theorem player_use_item_pdFrame (p : Player) (e : Enemy) (st : CombatState)
    (tc : Nat) (log : List String) (pb eb : List Buff) (l pd : List Debuff)
    (ed : List StatusInstance) (item : Option String) (g : Rng) :
    player_use_item ⟨p, e, st, tc, log, pb, eb, l ++ pd, ed⟩ item g =
      (player_use_item ⟨p, e, st, tc, log, pb, eb, pd, ed⟩ item g).mapC
        (pdFrame l) := by
  unfold player_use_item
  cases item with
  | none => rfl
  | some iname =>
    dsimp only
    split
    · rfl
    · rw [apply_item_effects_pdFrame]
      cases hX : apply_item_effects ⟨p, e, st, tc, log, pb, eb, pd, ed⟩ []
          (get_item_effects iname) with
      | error err => rfl
      | ok r =>
        obtain ⟨c1, msgs1⟩ := r
        obtain ⟨p1, e1, st1, tc1, log1, pb1, eb1, pd1, ed1⟩ := c1
        rfl

/-- Frame rule for the flee action. -/
theorem player_flee_pdFrame (p : Player) (e : Enemy) (st : CombatState)
    (tc : Nat) (log : List String) (pb eb : List Buff) (l pd : List Debuff)
    (ed : List StatusInstance) (g : Rng) :
    player_flee ⟨p, e, st, tc, log, pb, eb, l ++ pd, ed⟩ g =
      (player_flee ⟨p, e, st, tc, log, pb, eb, pd, ed⟩ g).mapC (pdFrame l) := by
  unfold player_flee add_to_log
  dsimp only
  split <;> rfl

/-- Frame rule for the automatic enemy turn. -/
theorem process_enemy_turn_pdFrame (p : Player) (e : Enemy) (st : CombatState)
    (tc : Nat) (log : List String) (pb eb : List Buff) (l pd : List Debuff)
    (ed : List StatusInstance) (g : Rng) :
    process_enemy_turn ⟨p, e, st, tc, log, pb, eb, l ++ pd, ed⟩ g =
      (process_enemy_turn ⟨p, e, st, tc, log, pb, eb, pd, ed⟩ g).mapC
        (pdFrame l) := by
  unfold process_enemy_turn
  dsimp only
  split
  · rfl
  · split
    · rfl
    · cases hS : Enemy.process_status_effects e with
      | error err => simp [hS, POut.mapC, pdFrame]
      | ok e1 =>
        simp only [hS]
        cases hN : Enemy.get_next_ability e1 with
        | error err => simp [hN, POut.mapC, pdFrame]
        | ok r =>
          obtain ⟨an, e2⟩ := r
          simp only [hN]
          rw [use_ability_pdFrame]
          cases hU : use_ability ⟨p, e2, st, tc, log, pb, eb, pd, ed⟩ .enemySide
              an .playerSide g with
          | exn err c2 g2 => rfl
          | ok m c2 g2 =>
            obtain ⟨p2, e3, st2, tc2, log2, pb2, eb2, pd2, ed2⟩ := c2
            rfl

/-- Frame rule for the loot roll loop. -/
theorem get_loot_rolls_pdFrame (items : List String) :
    ∀ (p : Player) (e : Enemy) (st : CombatState) (tc : Nat)
      (log : List String) (pb eb : List Buff) (l pd : List Debuff)
      (ed : List StatusInstance) (loot : List String) (g : Rng),
    get_loot_rolls ⟨p, e, st, tc, log, pb, eb, l ++ pd, ed⟩ loot g items =
      (fun r => (pdFrame l r.1, r.2))
        (get_loot_rolls ⟨p, e, st, tc, log, pb, eb, pd, ed⟩ loot g items) := by
  induction items with
  | nil => intros; rfl
  | cons item rest ih =>
    intro p e st tc log pb eb l pd ed loot g
    unfold get_loot_rolls
    dsimp only
    split
    · exact ih _ _ _ _ _ _ _ l _ _ _ _
    · exact ih _ _ _ _ _ _ _ l _ _ _ _

/-- Frame rule for victory processing. -/
theorem process_victory_pdFrame (p : Player) (e : Enemy) (st : CombatState)
    (tc : Nat) (log : List String) (pb eb : List Buff) (l pd : List Debuff)
    (ed : List StatusInstance) (g : Rng) :
    process_victory ⟨p, e, st, tc, log, pb, eb, l ++ pd, ed⟩ g =
      (fun r => (r.1, pdFrame l r.2.1, r.2.2))
        (process_victory ⟨p, e, st, tc, log, pb, eb, pd, ed⟩ g) := by
  unfold process_victory level_up get_loot add_to_log
  dsimp only
  split
  · rw [get_loot_rolls_pdFrame]
    rcases hX : get_loot_rolls ⟨_, e, st, tc, log, pb, eb, pd, ed⟩ [] g
        e.loot_table with ⟨c1, loot1, g1⟩
    obtain ⟨p1, e1, st1, tc1, log1, pb1, eb1, pd1, ed1⟩ := c1
    rfl
  · rw [get_loot_rolls_pdFrame]
    rcases hX : get_loot_rolls ⟨_, e, st, tc, log, pb, eb, pd, ed⟩ [] g
        e.loot_table with ⟨c1, loot1, g1⟩
    obtain ⟨p1, e1, st1, tc1, log1, pb1, eb1, pd1, ed1⟩ := c1
    rfl

/-- Frame rule for the post-action phase of a player turn. -/
theorem after_action_pdFrame (r : POut) (l : List Debuff) :
    after_action (r.mapC (pdFrame l)) = (after_action r).mapC (pdFrame l) := by
  cases r with
  | exn err c g => rfl
  | ok m c g =>
    obtain ⟨p, e, st, tc, log, pb, eb, pd, ed⟩ := c
    show after_action (.ok m ⟨p, e, st, tc, log, pb, eb, l ++ pd, ed⟩ g) = _
    unfold after_action POut.thenWith process_defeat add_to_log
    dsimp only
    split
    · rw [process_victory_pdFrame]
      rcases hX : process_victory ⟨p, e, CombatState.victory, tc, log, pb, eb,
          pd, ed⟩ g with ⟨m1, c1, g1⟩
      obtain ⟨p1, e1, st1, tc1, log1, pb1, eb1, pd1, ed1⟩ := c1
      rfl
    · rw [process_enemy_turn_pdFrame]
      cases hX : process_enemy_turn ⟨p, e, CombatState.enemy_turn, tc + 1, log,
          pb, eb, pd, ed⟩ g with
      | exn err c1 g1 => rfl
      | ok m1 c1 g1 =>
        obtain ⟨p1, e1, st1, tc1, log1, pb1, eb1, pd1, ed1⟩ := c1
        dsimp only [POut.mapC, pdFrame]
        split
        · split <;> rfl
        · split <;> rfl

/-- Frame rule for the action dispatch. -/
theorem action_step_pdFrame (p : Player) (e : Enemy) (st : CombatState)
    (tc : Nat) (log : List String) (pb eb : List Buff) (l pd : List Debuff)
    (ed : List StatusInstance) (a : String) (t i : Option String) (g : Rng) :
    action_step ⟨p, e, st, tc, log, pb, eb, l ++ pd, ed⟩ a t i g =
      (action_step ⟨p, e, st, tc, log, pb, eb, pd, ed⟩ a t i g).map
        (fun r => r.mapC (pdFrame l)) := by
  unfold action_step
  split
  · rw [player_attack_pdFrame]; rfl
  · split
    · rw [player_defend_pdFrame]; rfl
    · split
      · rw [player_ability_pdFrame]; rfl
      · split
        · rw [player_use_item_pdFrame]; rfl
        · split
          · rw [player_flee_pdFrame]; rfl
          · rfl

/-- Frame rule for a whole `process_player_turn` call: prepended player
debuff entries are carried through every action path untouched. -/
theorem process_player_turn_pdFrame (p : Player) (e : Enemy)
    (st : CombatState) (tc : Nat) (log : List String) (pb eb : List Buff)
    (l pd : List Debuff) (ed : List StatusInstance) (a : String)
    (t i : Option String) (g : Rng) :
    process_player_turn ⟨p, e, st, tc, log, pb, eb, l ++ pd, ed⟩ a t i g =
      (process_player_turn ⟨p, e, st, tc, log, pb, eb, pd, ed⟩ a t i g).mapC
        (pdFrame l) := by
  unfold process_player_turn
  dsimp only
  split
  · rfl
  · rw [action_step_pdFrame]
    cases hA : action_step ⟨p, e, st, tc, log, pb, eb, pd, ed⟩ a t i g with
    | none => rfl
    | some r =>
      dsimp only [Option.map]
      exact after_action_pdFrame r l

/-- The combat state of a mapped outcome. -/
theorem POut.mapC_combat (f : Combat → Combat) (r : POut) :
    (r.mapC f).combat = f r.combat := by cases r <;> rfl

/-- C10: player-side status effects are inert.  Entries of
`player_debuffs` are never ticked, decremented or removed by any
`process_player_turn` call — whatever the initial list, the call appends
the same suffix and leaves the initial entries verbatim in front, and
every other component of the outcome (player health and record, enemy,
state, turn counter, log, buffs, message, exception status, rng) is
identical for any two initial lists. -/
theorem C10_player_debuffs_inert (p : Player) (e : Enemy) (st : CombatState)
    (tc : Nat) (log : List String) (pb eb : List Buff) (pd pd' : List Debuff)
    (ed : List StatusInstance) (a : String) (t i : Option String) (g : Rng) :
    ∃ tail : List Debuff,
      (process_player_turn ⟨p, e, st, tc, log, pb, eb, pd, ed⟩ a t i
          g).combat.player_debuffs = pd ++ tail ∧
      (process_player_turn ⟨p, e, st, tc, log, pb, eb, pd', ed⟩ a t i
          g).combat.player_debuffs = pd' ++ tail ∧
      (process_player_turn ⟨p, e, st, tc, log, pb, eb, pd, ed⟩ a t i g).mapC
          (fun x => { x with player_debuffs := [] }) =
        (process_player_turn ⟨p, e, st, tc, log, pb, eb, pd', ed⟩ a t i g).mapC
          (fun x => { x with player_debuffs := [] }) := by
  have h1 := process_player_turn_pdFrame p e st tc log pb eb pd [] ed a t i g
  have h2 := process_player_turn_pdFrame p e st tc log pb eb pd' [] ed a t i g
  rw [List.append_nil] at h1 h2
  refine ⟨(process_player_turn ⟨p, e, st, tc, log, pb, eb, [], ed⟩ a t i
    g).combat.player_debuffs, ?_, ?_, ?_⟩
  · rw [h1]
    cases hB : process_player_turn ⟨p, e, st, tc, log, pb, eb, [], ed⟩ a t i g <;>
      rfl
  · rw [h2]
    cases hB : process_player_turn ⟨p, e, st, tc, log, pb, eb, [], ed⟩ a t i g <;>
      rfl
  · rw [h1, h2]
    cases hB : process_player_turn ⟨p, e, st, tc, log, pb, eb, [], ed⟩ a t i g <;>
      rfl

/-- Frame rule: `apply_effect` neither reads nor writes `player_buffs`. -/
theorem apply_effect_bFrame (p : Player) (e : Enemy) (st : CombatState)
    (tc : Nat) (log : List String) (bs pb eb : List Buff) (pd : List Debuff)
    (ed : List StatusInstance) (n : String) (t : Side) (dur : Int)
    (pow : Option Flt) :
    apply_effect ⟨p, e, st, tc, log, bs, eb, pd, ed⟩ n t dur pow =
      (fun r => (withBuffs bs r.1, r.2))
        (apply_effect ⟨p, e, st, tc, log, pb, eb, pd, ed⟩ n t dur pow) := by
  unfold apply_effect
  cases status_effects_catalog n with
  | none => rfl
  | some sd => cases t <;> rfl

/-- Frame rule: the damage step neither reads nor writes `player_buffs`. -/
theorem ua_apply_damage_bFrame (p : Player) (e : Enemy) (st : CombatState)
    (tc : Nat) (log : List String) (bs pb eb : List Buff) (pd : List Debuff)
    (ed : List StatusInstance) (dmg : Int) (dt : DamageType) (t : Side) :
    ua_apply_damage ⟨p, e, st, tc, log, bs, eb, pd, ed⟩ dmg dt t =
      (ua_apply_damage ⟨p, e, st, tc, log, pb, eb, pd, ed⟩ dmg dt t).map
        (fun r => (withBuffs bs r.1, r.2)) := by
  unfold ua_apply_damage
  split
  · cases t with
    | playerSide => rfl
    | enemySide =>
      cases hX : Enemy.take_damage e (Flt.ofInt dmg) (.dtype dt) with
      | error err => simp [hX, Except.map]
      | ok r => simp [hX, withBuffs, Except.map]
  · rfl

/-- Frame rule: the status step neither reads nor writes `player_buffs`. -/
theorem ua_apply_opt_effect_bFrame (p : Player) (e : Enemy) (st : CombatState)
    (tc : Nat) (log : List String) (bs pb eb : List Buff) (pd : List Debuff)
    (ed : List StatusInstance) (eff : Option String) (who : Side) (dur : Int)
    (pow : Option Flt) (parts : List String) :
    ua_apply_opt_effect ⟨p, e, st, tc, log, bs, eb, pd, ed⟩ eff who dur pow
        parts =
      (fun r => (withBuffs bs r.1, r.2))
        (ua_apply_opt_effect ⟨p, e, st, tc, log, pb, eb, pd, ed⟩ eff who dur
          pow parts) := by
  unfold ua_apply_opt_effect
  cases eff with
  | none => rfl
  | some en =>
    dsimp only
    rw [apply_effect_bFrame p e st tc log bs pb]
    rcases hX : apply_effect ⟨p, e, st, tc, log, pb, eb, pd, ed⟩ en who dur pow
      with ⟨c2, m2⟩
    cases m2 <;> rfl

/-- Frame rule: the lifesteal step neither reads nor writes
`player_buffs`. -/
theorem ua_lifesteal_bFrame (p : Player) (e : Enemy) (st : CombatState)
    (tc : Nat) (log : List String) (bs pb eb : List Buff) (pd : List Debuff)
    (ed : List StatusInstance) (ls : Option Flt) (u : Side) (dealt : Int)
    (uname : String) (parts : List String) :
    ua_lifesteal ⟨p, e, st, tc, log, bs, eb, pd, ed⟩ ls u dealt uname parts =
      (fun r => (withBuffs bs r.1, r.2))
        (ua_lifesteal ⟨p, e, st, tc, log, pb, eb, pd, ed⟩ ls u dealt uname parts) := by
  unfold ua_lifesteal
  cases ls with
  | none => rfl
  | some frac =>
    dsimp only
    split
    · cases u with
      | enemySide =>
        rcases hX : Enemy.heal e (pyInt (Flt.mul (Flt.ofInt dealt) frac))
          with ⟨e2, act⟩
        simp [hX, withBuffs]
      | playerSide => rfl
    · rfl

/-- Frame rule: the shared resolver neither reads nor writes
`player_buffs` — in particular the `defenseMultiplier` buff appended by
`player_defend` is never consulted when damage is resolved. -/
theorem use_ability_bFrame (p : Player) (e : Enemy) (st : CombatState)
    (tc : Nat) (log : List String) (bs pb eb : List Buff) (pd : List Debuff)
    (ed : List StatusInstance) (u : Side) (an : String) (t : Side) (g : Rng) :
    use_ability ⟨p, e, st, tc, log, bs, eb, pd, ed⟩ u an t g =
      (use_ability ⟨p, e, st, tc, log, pb, eb, pd, ed⟩ u an t g).mapC
        (withBuffs bs) := by
  unfold use_ability
  dsimp only
  split
  · rfl
  · split
    · rfl
    · rw [ua_apply_damage_bFrame p e st tc log bs pb]
      cases hX : ua_apply_damage ⟨p, e, st, tc, log, pb, eb, pd, ed⟩ _ _ t with
      | error err => rfl
      | ok r =>
        obtain ⟨c1, dealt⟩ := r
        obtain ⟨p1, e1, st1, tc1, log1, pb1, eb1, pd1, ed1⟩ := c1
        dsimp only [Except.map, withBuffs]
        rw [ua_apply_opt_effect_bFrame p1 e1 st1 tc1 log1 bs pb1]
        rcases hY : ua_apply_opt_effect ⟨p1, e1, st1, tc1, log1, pb1, eb1, pd1,
            ed1⟩ _ t _ _ _ with ⟨c2, parts2⟩
        obtain ⟨p2, e2, st2, tc2, log2, pb2, eb2, pd2, ed2⟩ := c2
        dsimp only [withBuffs]
        rw [ua_apply_opt_effect_bFrame p2 e2 st2 tc2 log2 bs pb2]
        rcases hZ : ua_apply_opt_effect ⟨p2, e2, st2, tc2, log2, pb2, eb2, pd2,
            ed2⟩ _ u _ _ _ with ⟨c3, parts3⟩
        obtain ⟨p3, e3, st3, tc3, log3, pb3, eb3, pd3, ed3⟩ := c3
        dsimp only [withBuffs]
        rw [ua_lifesteal_bFrame p3 e3 st3 tc3 log3 bs pb3]
        rcases hW : ua_lifesteal ⟨p3, e3, st3, tc3, log3, pb3, eb3, pd3, ed3⟩
            _ u dealt _ _ with ⟨c4, parts4⟩
        rfl

/-- Frame rule: the automatic enemy turn neither reads nor writes
`player_buffs`. -/
theorem process_enemy_turn_bFrame (p : Player) (e : Enemy) (st : CombatState)
    (tc : Nat) (log : List String) (bs pb eb : List Buff) (pd : List Debuff)
    (ed : List StatusInstance) (g : Rng) :
    process_enemy_turn ⟨p, e, st, tc, log, bs, eb, pd, ed⟩ g =
      (process_enemy_turn ⟨p, e, st, tc, log, pb, eb, pd, ed⟩ g).mapC
        (withBuffs bs) := by
  unfold process_enemy_turn
  dsimp only
  split
  · rfl
  · split
    · rfl
    · cases hS : Enemy.process_status_effects e with
      | error err => simp [hS, POut.mapC, withBuffs]
      | ok e1 =>
        simp only [hS]
        cases hN : Enemy.get_next_ability e1 with
        | error err => simp [hN, POut.mapC, withBuffs]
        | ok r =>
          obtain ⟨an, e2⟩ := r
          simp only [hN]
          rw [use_ability_bFrame p e2 st tc log bs pb]
          cases hU : use_ability ⟨p, e2, st, tc, log, pb, eb, pd, ed⟩ .enemySide
              an .playerSide g with
          | exn err c2 g2 => rfl
          | ok m c2 g2 =>
            obtain ⟨p2, e3, st2, tc2, log2, pb2, eb2, pd2, ed2⟩ := c2
            rfl

/-- C7: the `defenseMultiplier` buff appended by `player_defend` is never
applied to the incoming-damage computation.  The outcome of the enemy
action that delivers the next hit — the player health it leaves, whether
it raises, and everything else outside the buff list itself — is
identical whether or not the defending buff is present, so the net damage
taken is equal, not strictly less.  (A damaging enemy hit in fact raises
`AttributeError` before touching player health, because the player dict
has no `take_damage` attribute.) -/
theorem C7_defend_buff_never_applied (p : Player) (e : Enemy)
    (st : CombatState) (tc : Nat) (log : List String) (pb eb : List Buff)
    (pd : List Debuff) (ed : List StatusInstance) (g : Rng) :
    (process_enemy_turn ⟨p, e, st, tc, log, pb ++ [defending_buff], eb, pd, ed⟩
        g).combat.player.health =
      (process_enemy_turn ⟨p, e, st, tc, log, pb, eb, pd, ed⟩
        g).combat.player.health ∧
    (process_enemy_turn ⟨p, e, st, tc, log, pb ++ [defending_buff], eb, pd, ed⟩
        g).crashed =
      (process_enemy_turn ⟨p, e, st, tc, log, pb, eb, pd, ed⟩ g).crashed ∧
    (process_enemy_turn ⟨p, e, st, tc, log, pb ++ [defending_buff], eb, pd, ed⟩
        g).mapC (fun x => { x with player_buffs := [] }) =
      (process_enemy_turn ⟨p, e, st, tc, log, pb, eb, pd, ed⟩ g).mapC
        (fun x => { x with player_buffs := [] }) := by
  have h := process_enemy_turn_bFrame p e st tc log (pb ++ [defending_buff])
    pb eb pd ed g
  rw [h]
  cases hB : process_enemy_turn ⟨p, e, st, tc, log, pb, eb, pd, ed⟩ g <;>
    exact ⟨rfl, rfl, rfl⟩

/-- The loot roll loop touches only the player inventory, the loot list
and the rng. -/
theorem get_loot_rolls_fst (items : List String) :
    ∀ (p : Player) (e : Enemy) (st : CombatState) (tc : Nat)
      (log : List String) (pb eb : List Buff) (pd : List Debuff)
      (ed : List StatusInstance) (loot : List String) (g : Rng),
    get_loot_rolls ⟨p, e, st, tc, log, pb, eb, pd, ed⟩ loot g items =
      (⟨{ p with inventory :=
            (get_loot_rolls ⟨p, e, st, tc, log, pb, eb, pd, ed⟩ loot g
              items).1.player.inventory },
          e, st, tc, log, pb, eb, pd, ed⟩,
        (get_loot_rolls ⟨p, e, st, tc, log, pb, eb, pd, ed⟩ loot g items).2.1,
        (get_loot_rolls ⟨p, e, st, tc, log, pb, eb, pd, ed⟩ loot g items).2.2) := by
  induction items with
  | nil => intros; rfl
  | cons item rest ih =>
    intro p e st tc log pb eb pd ed loot g
    unfold get_loot_rolls
    dsimp only
    split <;> rw [ih]

/-- What victory processing does to the session: state, enemy and turn
counter are untouched, gold and XP are granted once (with the XP reduced
by the threshold when a level-up fires). -/
theorem process_victory_components (p : Player) (e : Enemy)
    (st : CombatState) (tc : Nat) (log : List String) (pb eb : List Buff)
    (pd : List Debuff) (ed : List StatusInstance) (g : Rng) :
    (process_victory ⟨p, e, st, tc, log, pb, eb, pd, ed⟩ g).2.1.state = st ∧
    (process_victory ⟨p, e, st, tc, log, pb, eb, pd, ed⟩ g).2.1.enemy = e ∧
    (process_victory ⟨p, e, st, tc, log, pb, eb, pd, ed⟩ g).2.1.turn_count = tc ∧
    (process_victory ⟨p, e, st, tc, log, pb, eb, pd, ed⟩ g).2.1.player.gold =
      p.gold + e.gold_reward ∧
    (process_victory ⟨p, e, st, tc, log, pb, eb, pd, ed⟩ g).2.1.player.xp =
      (if p.xp_to_next ≤ p.xp + e.xp_reward
        then p.xp + e.xp_reward - p.xp_to_next
        else p.xp + e.xp_reward) := by
  unfold process_victory level_up get_loot add_to_log
  dsimp only
  split
  next hlvl =>
    rw [get_loot_rolls_fst]
    exact ⟨rfl, rfl, rfl, rfl, rfl⟩
  next hlvl =>
    rw [get_loot_rolls_fst]
    exact ⟨rfl, rfl, rfl, rfl, rfl⟩

/-- C5: when the player action resolution leaves the enemy at health ≤ 0,
the same call transitions to `VICTORY`, processes no enemy action (the
enemy instance, including its pattern index, is returned exactly as the
action left it), grants the configured gold reward and XP reward of the enemy
exactly once (XP reduced by the threshold when the level-up fires), does
not increment the turn counter, and every subsequent
`process_player_turn` call is rejected without mutation, so nothing is
granted twice. -/
theorem C5_victory_short_circuit (p : Player) (e : Enemy) (tc : Nat)
    (log : List String) (pb eb : List Buff) (pd : List Debuff)
    (ed : List StatusInstance) (a : String) (t i : Option String) (g : Rng)
    (m : String) (c' : Combat) (g' : Rng)
    (hstep : action_step ⟨p, e, CombatState.player_turn, tc, log, pb, eb, pd,
      ed⟩ a t i g = some (.ok m c' g'))
    (hdead : c'.enemy.health ≤ 0) :
    (process_player_turn ⟨p, e, CombatState.player_turn, tc, log, pb, eb, pd,
        ed⟩ a t i g).combat.state = CombatState.victory ∧
    (process_player_turn ⟨p, e, CombatState.player_turn, tc, log, pb, eb, pd,
        ed⟩ a t i g).combat.enemy = c'.enemy ∧
    (process_player_turn ⟨p, e, CombatState.player_turn, tc, log, pb, eb, pd,
        ed⟩ a t i g).combat.turn_count = c'.turn_count ∧
    (process_player_turn ⟨p, e, CombatState.player_turn, tc, log, pb, eb, pd,
        ed⟩ a t i g).combat.player.gold =
      c'.player.gold + c'.enemy.gold_reward ∧
    (process_player_turn ⟨p, e, CombatState.player_turn, tc, log, pb, eb, pd,
        ed⟩ a t i g).combat.player.xp =
      (if c'.player.xp_to_next ≤ c'.player.xp + c'.enemy.xp_reward
        then c'.player.xp + c'.enemy.xp_reward - c'.player.xp_to_next
        else c'.player.xp + c'.enemy.xp_reward) ∧
    (∀ (a2 : String) (t2 i2 : Option String) (g2 : Rng),
      process_player_turn
          (process_player_turn ⟨p, e, CombatState.player_turn, tc, log, pb,
            eb, pd, ed⟩ a t i g).combat a2 t2 i2 g2 =
        .ok not_your_turn_msg
          (process_player_turn ⟨p, e, CombatState.player_turn, tc, log, pb,
            eb, pd, ed⟩ a t i g).combat g2) := by
  obtain ⟨p1, e1, st1, tc1, log1, pb1, eb1, pd1, ed1⟩ := c'
  have hR : process_player_turn ⟨p, e, CombatState.player_turn, tc, log, pb,
      eb, pd, ed⟩ a t i g =
      after_action (.ok m ⟨p1, e1, st1, tc1, log1, pb1, eb1, pd1, ed1⟩ g') := by
    unfold process_player_turn
    rw [if_neg (by simp), hstep]
  have halive : ¬ (e1.is_alive = true) := by
    simp only [Enemy.is_alive] at *
    simp only [decide_eq_true_eq]
    omega
  have hA : after_action (.ok m ⟨p1, e1, st1, tc1, log1, pb1, eb1, pd1, ed1⟩ g') =
      (let r := process_victory ⟨p1, e1, CombatState.victory, tc1, log1, pb1,
        eb1, pd1, ed1⟩ g'
      .ok (m ++ "\n" ++ r.1) r.2.1 r.2.2) := by
    unfold after_action POut.thenWith
    dsimp only
    rw [if_pos halive]
  have hcomp := process_victory_components p1 e1 CombatState.victory tc1 log1
    pb1 eb1 pd1 ed1 g'
  rw [hR, hA]
  dsimp only [POut.combat]
  obtain ⟨h1, h2, h3, h4, h5⟩ := hcomp
  refine ⟨h1, h2, h3, h4, h5, ?_⟩
  intro a2 t2 i2 g2
  apply ppt_rejects
  rw [h1]
  simp

/-- Witness for C5: the attack leaves the goblin at health −8, the call
ends in `VICTORY` with the 5 gold spawn roll granted (50 + 5 = 55). -/
theorem C5_victory_short_circuit_witness :
    (action_step c5_base "attack" none none rng_c5 =
      some (.ok c5_step.msg c5_step.combat c5_step.rng)) ∧
    c5_step.combat.enemy.health ≤ 0 ∧
    (process_player_turn c5_base "attack" none none rng_c5).combat.state =
      CombatState.victory ∧
    (process_player_turn c5_base "attack" none none
      rng_c5).combat.player.gold = 55 :=
  ⟨rfl, by decide,
    (C5_victory_short_circuit sample_player { goblin_enemy 5 with health := 1 }
      0 [] [] [] [] [] "attack" none none rng_c5 c5_step.msg c5_step.combat
      c5_step.rng rfl (by decide)).1,
    by rfl⟩
